import Mathlib

/-
Verification development for the nuscenes2bag conversion engine.

The definitions below are shallow embeddings of the C++ sources:
  * src/src/SceneConverter.cpp   (sensor classification, colors, boxes,
    annotation interpolation, marker construction)
  * src/src/NuScenes2Rosbag.cpp  (sample-set discovery, decode-task posting,
    the drain loop over per-topic queues)

Conventions of the embedding:
  * C++ std::string becomes Lean String; substring search `str.find(sub) !=
    npos` becomes an executable scan over the character list.
  * Timestamps (uint64_t microseconds) become Nat; the claims under study
    only concern ranges where unsigned wrap-around cannot occur.
  * float / double data that is only copied, compared or linearly combined is
    modelled as exact rationals; quaternion slerp, which uses trigonometric
    functions, is modelled over the real numbers.
  * std::map lookups become association-list lookups (first matching key);
    std::map::insert keeps the first value for a duplicated key, which the
    association list reproduces.
  * Functions that print a diagnostic and return early become functions that
    return their input unchanged on those paths.
-/

set_option maxHeartbeats 1000000

abbrev Token := String

/-- Char-list test: `sub` is a leading segment of the second list. Building
block for the substring scan used by std::string::find. -/
def startsWithChars : List Char → List Char → Bool
  | [], _ => true
  | _ :: _, [] => false
  | a :: as, b :: bs => a == b && startsWithChars as bs

/-- Char-list test: `sub` occurs contiguously somewhere in the second list
(the semantics of `str.find(sub) != std::string::npos`, including that the
empty pattern always occurs). -/
def containsChars (sub : List Char) : List Char → Bool
  | [] => sub.isEmpty
  | a :: rest => startsWithChars sub (a :: rest) || containsChars sub rest

/-- Embeds `stringContains` (SceneConverter.cpp:507) / `str.find(substr) !=
npos`: case-sensitive substring test. -/
def strContains (str substr : String) : Bool :=
  containsChars substr.data str.data

/-- Lower-case a string character by character (models std::tolower applied
per character). -/
def toLowerString (s : String) : String :=
  ⟨s.data.map Char.toLower⟩

/-- Modelled from the spec: `string_icontains` (declared in the repository's
utils header, whose implementation file is not among the sources) —
case-insensitive substring containment, per spec section 4.2. -/
def string_icontains (str substr : String) : Bool :=
  strContains (toLowerString str) (toLowerString substr)

/-- SampleType (DatasetTypes.hpp), as used by getSampleType. -/
inductive SampleType where
  | CAMERA
  | RADAR
  | LIDAR
deriving DecidableEq, Repr

/-- Embeds `getSampleType` (SceneConverter.cpp:28-43, the C++17 variant):
scan the ordered marker list CAM, RADAR, LIDAR with `filename.find` (a
case-sensitive substring search), first match wins, `nullopt` when no marker
occurs. -/
def getSampleType (filename : String) : Option SampleType :=
  if strContains filename "CAM" then some SampleType.CAMERA
  else if strContains filename "RADAR" then some SampleType.RADAR
  else if strContains filename "LIDAR" then some SampleType.LIDAR
  else none

/-- The classification the spec describes for every directory or file name
(spec section 4.2): the same ordered marker list, but matched
case-insensitively. Stated separately so it can be compared with
`getSampleType`, which the source implements with a case-sensitive find. -/
def getSampleTypeCI (filename : String) : Option SampleType :=
  if string_icontains filename "CAM" then some SampleType.CAMERA
  else if string_icontains filename "RADAR" then some SampleType.RADAR
  else if string_icontains filename "LIDAR" then some SampleType.LIDAR
  else none

/-- SampleSetType (NuScenes2Rosbag's descriptor types). -/
inductive SampleSetType where
  | CAMERA
  | RADAR
  | LIDAR
deriving DecidableEq, Repr

/-- Descriptor of one sample-set directory (directory name plus its
classified type); the path component is not needed by any claim. -/
structure FileSystemSampleSet where
  directoryName : String
  setType : SampleSetType
deriving DecidableEq, Repr

/-- Embeds `NuScenes2Rosbag::extractSampleSetDescriptorInDirectory`
(NuScenes2Rosbag.cpp:22-47): match the directory name case-insensitively
(`string_icontains`) against the ordered presets CAM, RADAR, LIDAR; first
match yields the descriptor, no match yields nullopt (directory skipped). -/
def extractSampleSetDescriptorInDirectory (dirName : String) :
    Option FileSystemSampleSet :=
  if string_icontains dirName "CAM" then
    some ⟨dirName, SampleSetType.CAMERA⟩
  else if string_icontains dirName "RADAR" then
    some ⟨dirName, SampleSetType.RADAR⟩
  else if string_icontains dirName "LIDAR" then
    some ⟨dirName, SampleSetType.LIDAR⟩
  else none

/-- std_msgs::ColorRGBA with the double literals of the source kept as exact
rationals. -/
structure ColorRGBA where
  r : ℚ
  g : ℚ
  b : ℚ
  a : ℚ
deriving DecidableEq, Repr

/-- The red used for bicycles and motorcycles (SceneConverter.cpp:519-534). -/
def colorRed : ColorRGBA := ⟨1, 0.239, 0.388, 1⟩

/-- The orange used for the vehicle keyword group (SceneConverter.cpp:535-582). -/
def colorOrange : ColorRGBA := ⟨1, 0.619, 0, 1⟩

/-- The blue used for pedestrians (SceneConverter.cpp:583-590). -/
def colorBlue : ColorRGBA := ⟨0, 0, 0.901, 1⟩

/-- The black used for cones and barriers (SceneConverter.cpp:591-606). -/
def colorBlack : ColorRGBA := ⟨0, 0, 0, 1⟩

/-- The magenta fallback (SceneConverter.cpp:608-613). -/
def colorMagenta : ColorRGBA := ⟨1, 0, 1, 1⟩

/-- Embeds `getColor` (SceneConverter.cpp:515-614): a chain of
`stringContains` tests in source order, first match wins, magenta if no
keyword occurs in the category name. -/
def getColor (categoryName : String) : ColorRGBA :=
  if strContains categoryName "bicycle" then colorRed
  else if strContains categoryName "motorcycle" then colorRed
  else if strContains categoryName "vehicle" then colorOrange
  else if strContains categoryName "bus" then colorOrange
  else if strContains categoryName "car" then colorOrange
  else if strContains categoryName "construction_vehicle" then colorOrange
  else if strContains categoryName "trailer" then colorOrange
  else if strContains categoryName "truck" then colorOrange
  else if strContains categoryName "pedestrian" then colorBlue
  else if strContains categoryName "cone" then colorBlack
  else if strContains categoryName "barrier" then colorBlack
  else colorMagenta

/-- First-match evaluation of an ordered keyword-to-color rule list, with the
magenta default: the shape in which the spec states the color mapping. -/
def firstRuleColor : List (String × ColorRGBA) → String → ColorRGBA
  | [], _ => colorMagenta
  | (kw, col) :: rest, c => if strContains c kw then col else firstRuleColor rest c

/-- The ordered rule list exactly as the spec words it: bicycle/motorcycle
red, the six vehicle keywords orange, pedestrian blue, cone/barrier black. -/
def colorRules : List (String × ColorRGBA) :=
  [("bicycle", colorRed), ("motorcycle", colorRed),
   ("vehicle", colorOrange), ("bus", colorOrange), ("car", colorOrange),
   ("construction_vehicle", colorOrange), ("trailer", colorOrange),
   ("truck", colorOrange),
   ("pedestrian", colorBlue),
   ("cone", colorBlack), ("barrier", colorBlack)]

/-- The spec's category-to-color mapping, to be compared with `getColor`. -/
def specColor (categoryName : String) : ColorRGBA :=
  firstRuleColor colorRules categoryName

/-- A 3-vector of exact scalars (models the float[3] / Eigen::Vector3d data
that the interpolation only copies or combines linearly). -/
structure Vec3 where
  x : ℚ
  y : ℚ
  z : ℚ
deriving DecidableEq, Repr

/-- A quaternion in (w, x, y, z) order, over the reals so that the slerp of
the source (Eigen trigonometric slerp) can be expressed. `makeQuaterniond`
(SceneConverter.cpp:323-326) reads the stored float[4] as (w, x, y, z). -/
structure Quat where
  w : ℝ
  x : ℝ
  y : ℝ
  z : ℝ

/-- SampleInfo (MetaData.hpp): one Sample of the temporal chain. `prev` is
the previous Sample's token, the empty string when there is none. -/
structure SampleInfo where
  token : Token
  timeStamp : ℕ
  prev : Token
deriving DecidableEq, Repr

/-- SampleDataInfo (MetaData.hpp): one raw sensor file's metadata record. -/
structure SampleDataInfo where
  token : Token
  sampleToken : Token
  timeStamp : ℕ
  isKeyFrame : Bool
  fileName : String
  calibratedSensorToken : Token
deriving DecidableEq, Repr

/-- SampleAnnotationInfo (MetaData.hpp): one labeled 3D box. `translation`
is the float[3] center, `size` the float[3] extent, `rotation` the float[4]
quaternion in (w, x, y, z) order. -/
structure SampleAnnotationInfo where
  token : Token
  instanceToken : Token
  translation : Vec3
  size : Vec3
  rotation : Quat
  categoryName : String

/-- The Box message assembled by makeBox: center, size, orientation, source
annotation token, category name, category color. -/
structure Box where
  center : Vec3
  size : Vec3
  orientation : Quat
  token : Token
  category_name : String
  color : ColorRGBA

/-- Embeds `makeBox(const SampleAnnotationInfo&)` (SceneConverter.cpp:447-471):
copy translation, size, rotation (w, x, y, z), token and category into the
box, and attach the category color. -/
def makeBox (ann : SampleAnnotationInfo) : Box :=
  { center := ann.translation
    size := ann.size
    orientation := ann.rotation
    token := ann.token
    category_name := ann.categoryName
    color := getColor ann.categoryName }

/-- Embeds `makeBox(const SampleAnnotationInfo&, const Eigen::Vector3d&,
const Eigen::Quaterniond&)` (SceneConverter.cpp:473-496): the interpolated
center and rotation, size, token, category and color from the annotation. -/
def makeBoxInterp (ann : SampleAnnotationInfo) (center : Vec3)
    (rotation : Quat) : Box :=
  { center := center
    size := ann.size
    orientation := rotation
    token := ann.token
    category_name := ann.categoryName
    color := getColor ann.categoryName }

/-- Embeds `lerp` (SceneConverter.cpp:443-445):
`lerp(t, p0, p1) = t*p0 + (1-t)*p1`, componentwise. -/
def lerp (t : ℚ) (p0 p1 : Vec3) : Vec3 :=
  ⟨t * p0.x + (1 - t) * p1.x, t * p0.y + (1 - t) * p1.y,
   t * p0.z + (1 - t) * p1.z⟩

/-- The timestamp clamp of SceneConverter.cpp:409:
`t = std::max(t0, std::min(t1, t))`. -/
def clampT (t0 t1 t : ℕ) : ℕ := max t0 (min t1 t)

/-- The interpolation fraction of SceneConverter.cpp:404-425: clamp the
SampleData timestamp into [t0, t1], then divide the unsigned differences
`(t - t0) / (t1 - t0)` (exact rational in place of the double quotient). -/
def interpAmount (t0 t1 t : ℕ) : ℚ :=
  ((clampT t0 t1 t - t0 : ℕ) : ℚ) / ((t1 - t0 : ℕ) : ℚ)

/-- Dot product of two quaternions (Eigen `this->dot(other)`). -/
noncomputable def quatDot (q0 q1 : Quat) : ℝ :=
  q0.w * q1.w + q0.x * q1.x + q0.y * q1.y + q0.z * q1.z

/-- Squared Euclidean norm of a quaternion. -/
noncomputable def quatNormSq (q : Quat) : ℝ :=
  q.w ^ 2 + q.x ^ 2 + q.y ^ 2 + q.z ^ 2

/-- Euclidean norm of a quaternion. -/
noncomputable def quatNorm (q : Quat) : ℝ :=
  Real.sqrt (quatNormSq q)

/-- The first coefficient of Eigen's `QuaternionBase::slerp(t, other)` as a
function of t and the dot product d, over ideal reals (the float-epsilon
guard `absD >= one` of the near-parallel branch becomes the exact test
`1 <= |d|`): `1 - t` in the near-parallel branch,
`sin((1-t)*theta)/sin(theta)` with `theta = acos(|d|)` otherwise. -/
noncomputable def slerpScale0 (t d : ℝ) : ℝ :=
  if 1 ≤ |d| then 1 - t
  else Real.sin ((1 - t) * Real.arccos |d|) / Real.sin (Real.arccos |d|)

/-- The second coefficient of Eigen's slerp: `t` in the near-parallel branch,
`sin(t*theta)/sin(theta)` otherwise, negated when the dot product is
negative (`if (d < 0) scale1 = -scale1`). -/
noncomputable def slerpScale1 (t d : ℝ) : ℝ :=
  if d < 0 then
    -(if 1 ≤ |d| then t
      else Real.sin (t * Real.arccos |d|) / Real.sin (Real.arccos |d|))
  else
    (if 1 ≤ |d| then t
     else Real.sin (t * Real.arccos |d|) / Real.sin (Real.arccos |d|))

/-- Embeds Eigen's `QuaternionBase::slerp(t, other)`, called as
`q0.slerp(amount, q1)` at SceneConverter.cpp:435: the result is
`scale0 * q0 + scale1 * q1` componentwise, with the two coefficients
computed from the dot product as above. -/
noncomputable def slerpE (t : ℝ) (q0 q1 : Quat) : Quat :=
  ⟨slerpScale0 t (quatDot q0 q1) * q0.w + slerpScale1 t (quatDot q0 q1) * q1.w,
   slerpScale0 t (quatDot q0 q1) * q0.x + slerpScale1 t (quatDot q0 q1) * q1.x,
   slerpScale0 t (quatDot q0 q1) * q0.y + slerpScale1 t (quatDot q0 q1) * q1.y,
   slerpScale0 t (quatDot q0 q1) * q0.z + slerpScale1 t (quatDot q0 q1) * q1.z⟩

/-- The scene-local maps a SceneConverter owns after submit():
sample token to Sample, and sample token to that sample's annotations
(association lists; lookup is the std::map find). -/
structure SceneMaps where
  sceneSamples : List (Token × SampleInfo)
  sceneAnnotations : List (Token × List SampleAnnotationInfo)

/-- The body of the per-annotation loop of the intermediate branch
(SceneConverter.cpp:411-439): look the instance token up in the previous
sample's instance map; absent instances keep their current box, present ones
get the lerped center (current first, previous second, as in
`lerp(amount, c1, c0)`) and the slerped orientation. -/
noncomputable def interpolateOneBox (prevAnns : List SampleAnnotationInfo)
    (amount : ℚ) (ann : SampleAnnotationInfo) : Box :=
  match prevAnns.find? (fun a => a.instanceToken == ann.instanceToken) with
  | none => makeBox ann
  | some prevAnn =>
      makeBoxInterp ann
        (lerp amount ann.translation prevAnn.translation)
        (slerpE ((amount : ℚ) : ℝ) prevAnn.rotation ann.rotation)

/-- Embeds `SceneConverter::getBoxes` (SceneConverter.cpp:328-441). The C++
appends to the `boxes` vector passed by reference and returns early (with a
diagnostic) when a map lookup fails; here the function returns the final
vector contents, so every early-return path returns `boxes` unchanged.
Keyframe sample data, and sample data whose sample has no previous sample,
get the raw annotation boxes; intermediate sample data gets one interpolated
box per current annotation. -/
noncomputable def getBoxes (m : SceneMaps) (sampleData : SampleDataInfo)
    (boxes : List Box) : List Box :=
  match m.sceneSamples.lookup sampleData.sampleToken with
  | none => boxes
  | some currSample =>
    if sampleData.isKeyFrame || currSample.prev == "" then
      match m.sceneAnnotations.lookup sampleData.sampleToken with
      | none => boxes
      | some anns => boxes ++ anns.map makeBox
    else
      match m.sceneSamples.lookup currSample.prev with
      | none => boxes
      | some prevSample =>
        match m.sceneAnnotations.lookup sampleData.sampleToken with
        | none => boxes
        | some currAnns =>
          match m.sceneAnnotations.lookup prevSample.token with
          | none => boxes
          | some prevAnns =>
            let amount :=
              interpAmount prevSample.timeStamp currSample.timeStamp
                sampleData.timeStamp
            boxes ++ currAnns.map (interpolateOneBox prevAnns amount)

/-- geometry_msgs::Point with double coordinates, over the reals (marker
corners pass through the quaternion rotation). -/
structure Point3 where
  x : ℝ
  y : ℝ
  z : ℝ

/-- Application of a unit-quaternion rotation to a point, written as the
standard rotation matrix of the quaternion (what Eigen computes for
`Quaterniond * Vector3d` inside the Affine3d product of
SceneConverter.cpp:620-622). -/
noncomputable def quatRotate (q : Quat) (v : Point3) : Point3 :=
  ⟨(1 - 2 * (q.y ^ 2 + q.z ^ 2)) * v.x + (2 * (q.x * q.y - q.z * q.w)) * v.y
      + (2 * (q.x * q.z + q.y * q.w)) * v.z,
   (2 * (q.x * q.y + q.z * q.w)) * v.x + (1 - 2 * (q.x ^ 2 + q.z ^ 2)) * v.y
      + (2 * (q.y * q.z - q.x * q.w)) * v.z,
   (2 * (q.x * q.z - q.y * q.w)) * v.x + (2 * (q.y * q.z + q.x * q.w)) * v.y
      + (1 - 2 * (q.x ^ 2 + q.y ^ 2)) * v.z⟩

/-- The Affine3d pose of SceneConverter.cpp:620-622 applied to a corner:
rotate by the box orientation, then translate by the box center. -/
noncomputable def poseApply (box : Box) (v : Point3) : Point3 :=
  let r := quatRotate box.orientation v
  ⟨r.x + (box.center.x : ℝ), r.y + (box.center.y : ℝ), r.z + (box.center.z : ℝ)⟩

/-- The slice of visualization_msgs::Marker that the claims are about: the
marker id, the LINE_LIST point pairs, the per-point colors and the marker
color. (type LINE_LIST, namespace, lifetime, identity pose and line width
are constants in the source and carry no claim content.) -/
structure Marker where
  id : ℕ
  points : List Point3
  colors : List ColorRGBA
  color : ColorRGBA

/-- Embeds `makeMarkerMsg` (SceneConverter.cpp:616-738): the eight corners of
the box (width = size.x along the second local axis, depth = size.y along
the first, height = size.z), mapped through the box pose, joined into the
twelve edges of the box as a LINE_LIST (24 points, one segment per
consecutive pair), every point colored with the box color. -/
noncomputable def makeMarkerMsg (box : Box) (id : ℕ) : Marker :=
  let width := (box.size.x : ℝ)
  let depth := (box.size.y : ℝ)
  let height := (box.size.z : ℝ)
  let mn : Point3 := ⟨-depth / 2, -width / 2, -height / 2⟩
  let mx : Point3 := ⟨depth / 2, width / 2, height / 2⟩
  let p1 := poseApply box ⟨mn.x, mn.y, mn.z⟩
  let p2 := poseApply box ⟨mn.x, mn.y, mx.z⟩
  let p3 := poseApply box ⟨mx.x, mn.y, mx.z⟩
  let p4 := poseApply box ⟨mx.x, mn.y, mn.z⟩
  let p5 := poseApply box ⟨mn.x, mx.y, mn.z⟩
  let p6 := poseApply box ⟨mn.x, mx.y, mx.z⟩
  let p7 := poseApply box ⟨mx.x, mx.y, mx.z⟩
  let p8 := poseApply box ⟨mx.x, mx.y, mn.z⟩
  { id := id
    points :=
      [p1, p2, p1, p4, p1, p5, p5, p6, p5, p8, p2, p6,
       p6, p7, p7, p8, p2, p3, p4, p8, p3, p4, p3, p7]
    colors := List.replicate 24 box.color
    color := box.color }

/-- Embeds `makeMarkerArrayMsg` (SceneConverter.cpp:740-752): one marker per
box, ids counting up from 0. -/
noncomputable def makeMarkerArrayMsg (boxes : List Box) : List Marker :=
  boxes.enum.map (fun p => makeMarkerMsg p.2 p.1)

/-- The Boxes message written on the "boxes" topic
(SceneConverter.cpp:310-314): stamp, frame id "map", and the box list. -/
structure BoxesMsg where
  stamp : ℕ
  frameId : String
  boxes : List Box

/-- One write into the scene's output bag made by convertAnnotations: the
structured box list on topic "boxes", or the marker array on "boxes_viz". -/
inductive BagWrite where
  | boxesTopic (t : ℕ) (msg : BoxesMsg)
  | boxesVizTopic (t : ℕ) (markers : List Marker)

/-- Embeds `SceneConverter::convertAnnotations` (SceneConverter.cpp:278-321)
as the list of bag writes it performs: for each SampleData in order, classify
its file name with getSampleType; only sample data classified LIDAR produces
writes — the box list obtained from getBoxes (starting from an empty
vector) on "boxes" and the derived marker array on "boxes_viz", both stamped
with the SampleData timestamp. Unclassified and non-LIDAR sample data
produce no annotation writes. (The calibrated-sensor name lookups of lines
297-302 only feed the raw-data topics, not these writes, and are omitted.) -/
noncomputable def convertAnnotations (m : SceneMaps)
    (sampleDatas : List SampleDataInfo) : List BagWrite :=
  sampleDatas.flatMap (fun sd =>
    match getSampleType sd.fileName with
    | some SampleType.LIDAR =>
        let boxes := getBoxes m sd []
        [BagWrite.boxesTopic sd.timeStamp ⟨sd.timeStamp, "map", boxes⟩,
         BagWrite.boxesVizTopic sd.timeStamp (makeMarkerArrayMsg boxes)]
    | _ => [])

/-
Drain loop (NuScenes2Rosbag::processSampleSets, NuScenes2Rosbag.cpp:115-127).

The loop polls every per-topic queue in round-robin; a queue that is not yet
closed or still holds items sets `atLeastOneQueueIsStillOpen` and is
processed; the loop exits when no queue set the flag.

The queue type itself (SampleQueue.hpp) is not among the source files; its
operations are modelled from the spec, section 4.5: `queue.process` pops as
many ready items as available and forwards each to the output writer, a
queue is closed once its producer pushed its last item. Producers run
concurrently; the model serializes their pushes at pass boundaries: before
pass n, queue i has received the first `delivered n i` of its items and its
closed flag is `closedAt n i`. The claim's hypothesis — every producer
eventually pushes its k_i items and closes — becomes the monotonicity and
closure fields plus the `closedAt P i = true` hypothesis of the theorem.
-/

/-- N per-topic queues with their (already scheduled) producer behaviour:
`items i` is everything producer i will ever push, in order; `delivered n i`
is how many of those items have been pushed before drain pass n; `closedAt n
i` tells whether queue i is closed before pass n. A producer closes only
after its last push. -/
structure DrainSystem (α : Type) (N : ℕ) where
  items : Fin N → List α
  delivered : ℕ → Fin N → ℕ
  closedAt : ℕ → Fin N → Bool
  delivered_zero : ∀ i, delivered 0 i = 0
  delivered_mono : ∀ n i, delivered n i ≤ delivered (n + 1) i
  delivered_le : ∀ n i, delivered n i ≤ (items i).length
  closed_mono : ∀ n i, closedAt n i = true → closedAt (n + 1) i = true
  closed_full : ∀ n i, closedAt n i = true → delivered n i = (items i).length

/-- Number of items of queue i that the drain loop has popped before pass n.
Pass n processes queue i exactly when the code's condition
`!queue.isClosed() || queue.size() > 0` holds, and then pops every item that
has been delivered; a skipped queue keeps its count. -/
def DrainSystem.drained {α : Type} {N : ℕ} (S : DrainSystem α N) :
    ℕ → Fin N → ℕ
  | 0, _ => 0
  | n + 1, i =>
    if (!(S.closedAt n i)) ||
        decide (0 < (((S.items i).take (S.delivered n i)).drop
          (DrainSystem.drained S n i)).length) then
      S.delivered n i
    else
      DrainSystem.drained S n i

/-- The contents of queue i at the start of pass n: delivered, not yet
popped. -/
def DrainSystem.buffer {α : Type} {N : ℕ} (S : DrainSystem α N) (n : ℕ)
    (i : Fin N) : List α :=
  ((S.items i).take (S.delivered n i)).drop (S.drained n i)

/-- The code's per-queue condition `!queue.isClosed() || queue.size() > 0`
at pass n. -/
def DrainSystem.stillOpen {α : Type} {N : ℕ} (S : DrainSystem α N) (n : ℕ)
    (i : Fin N) : Bool :=
  (!(S.closedAt n i)) || decide (0 < (S.buffer n i).length)

/-- `atLeastOneQueueIsStillOpen` after pass n's round-robin sweep: some
queue was not yet closed or still held items. The loop breaks when this is
false. -/
def DrainSystem.passFlag {α : Type} {N : ℕ} (S : DrainSystem α N) (n : ℕ) :
    Bool :=
  (List.finRange N).any (fun i => S.stillOpen n i)

/-- What pass n forwards to the output writer from queue i: the whole ready
buffer when the queue is processed, nothing when it is skipped. -/
def DrainSystem.chunk {α : Type} {N : ℕ} (S : DrainSystem α N) (n : ℕ)
    (i : Fin N) : List α :=
  if S.stillOpen n i then S.buffer n i else []

/-- Everything forwarded from queue i during passes 0, ..., T-1, in order. -/
def DrainSystem.forwardedUpTo {α : Type} {N : ℕ} (S : DrainSystem α N)
    (T : ℕ) (i : Fin N) : List α :=
  (List.range T).flatMap (fun n => S.chunk n i)

/-
Decode-task posting (NuScenes2Rosbag::processSampleSets,
NuScenes2Rosbag.cpp:81-109).

The loop over the chosen sample sets creates one per-topic queue per set and
one directory converter per CAMERA set (a non-CAMERA set throws
"Not supported SampleSetType"). After the loop the code posts exactly one
task to the thread pool: `sampleSetConverters.back().get()` — the converter
of the LAST sample set only.
-/

/-- The topics of the per-topic queues the loop creates, one per chosen
sample set, identified here by the set's directory name (the exact topic
string comes from `topicNameForSampleSetType`, outside the sources). -/
def queueTopics (sampleSets : List FileSystemSampleSet) : List String :=
  sampleSets.map (fun s => s.directoryName)

/-- Embeds the task submission of processSampleSets: when every chosen set
is a CAMERA set (otherwise the function throws), the only decode task posted
to the pool is the converter of the last sample set
(`boost::asio::post(pool, [converter]() ...)` with
`converter = sampleSetConverters.back().get()`); calling `back()` on the
empty converter vector (no sample sets) is undefined, modelled as an error. -/
def postedDecodeTasks (sampleSets : List FileSystemSampleSet) :
    Except String (List String) :=
  if sampleSets.all (fun s => s.setType == SampleSetType.CAMERA) then
    match sampleSets.getLast? with
    | some s => Except.ok [s.directoryName]
    | none => Except.error "back() on empty converter vector"
  else
    Except.error "Not supported SampleSetType"

/-- First-match scan of an ordered marker list, the shape in which the spec
states sensor classification (ordered markers, first match wins, absent when
none matches), here with the case-sensitive containment the source uses. -/
def firstMarkerType (rules : List (String × SampleType)) (name : String) :
    Option SampleType :=
  match rules with
  | [] => none
  | (kw, ty) :: rest =>
      if strContains name kw then some ty else firstMarkerType rest name

/-
Concrete fixtures used by witnesses and counterexamples. The quaternion
(1, 0, 0, 0) is the identity rotation; timestamps and tokens are arbitrary.
-/

/-- A fixture annotation attached to sample "S". -/
def annV : SampleAnnotationInfo :=
  ⟨"annV", "instV", ⟨1, 2, 3⟩, ⟨4, 5, 6⟩, ⟨1, 0, 0, 0⟩, "vehicle.car"⟩

/-- A fixture annotation attached to the previous sample "P", same instance
token as annV. -/
def annVprev : SampleAnnotationInfo :=
  ⟨"annVprev", "instV", ⟨3, 6, 9⟩, ⟨4, 5, 6⟩, ⟨1, 0, 0, 0⟩, "vehicle.car"⟩

/-- A fixture annotation of the current sample whose instance token occurs in
no previous annotation. -/
def annNew : SampleAnnotationInfo :=
  ⟨"annNew", "instNew", ⟨7, 8, 9⟩, ⟨1, 1, 1⟩, ⟨1, 0, 0, 0⟩, "human.pedestrian.adult"⟩

/-- Fixture sample with no previous sample. -/
def sampleP : SampleInfo := ⟨"P", 100, ""⟩

/-- Fixture sample following sampleP in the chain. -/
def sampleS : SampleInfo := ⟨"S", 300, "P"⟩

/-- Scene maps holding the two chained fixture samples and their
annotations. -/
def mapsAB : SceneMaps :=
  ⟨[("P", sampleP), ("S", sampleS)],
   [("P", [annVprev]), ("S", [annV, annNew])]⟩

/-- A keyframe LIDAR SampleData of sample "S". -/
def sdKey : SampleDataInfo :=
  ⟨"sd1", "S", 300, true, "n015__LIDAR_TOP__300.pcd", "cs1"⟩

/-- An intermediate (non-keyframe) LIDAR SampleData of sample "S", halfway
between the two sample timestamps. -/
def sdMid : SampleDataInfo :=
  ⟨"sd2", "S", 200, false, "n015__LIDAR_TOP__200.pcd", "cs1"⟩

/-- A camera SampleData of sample "S" (classified CAMERA, not LIDAR). -/
def sdCam : SampleDataInfo :=
  ⟨"sd3", "S", 300, true, "CAM_FRONT.jpg", "cs2"⟩

/-- Scene maps whose only sample is a keyframe sample with a dangling
previous-sample token "PX" that no map entry carries. -/
def mapsDangling : SceneMaps :=
  ⟨[("S", ⟨"S", 300, "PX"⟩)], [("S", [annV])]⟩

/-
C9 — category color mapping.
-/

/-- C9: for every category name, getColor follows the spec's ordered
keyword-substring rule list (bicycle/motorcycle red, the vehicle keyword
group orange, pedestrian blue, cone/barrier black, magenta default, first
matching rule wins, checked in that order), and in particular "vehicle.car"
is orange {1, 0.619, 0, 1}, "human.pedestrian.adult" is blue
{0, 0, 0.901, 1}, and a category matching no keyword is magenta
{1, 0, 1, 1}. -/
theorem getColor_follows_ordered_rules :
    (∀ c : String, getColor c = specColor c) ∧
    getColor "vehicle.car" = ⟨1, 0.619, 0, 1⟩ ∧
    getColor "human.pedestrian.adult" = ⟨0, 0, 0.901, 1⟩ ∧
    getColor "animal" = ⟨1, 0, 1, 1⟩ := by
  refine ⟨fun c => ?_, rfl, rfl, rfl⟩
  simp only [getColor, specColor, colorRules, firstRuleColor]

/-
C8 — sensor classification by name.
-/

/-- C8 counterexample: classification is not case-insensitive in the source.
getSampleType (the per-file classifier, SceneConverter.cpp:28-43) uses the
case-sensitive `find`, so the lower-case name "cam_front" classifies as
absent, while the case-insensitive match the claim describes (and which
extractSampleSetDescriptorInDirectory does use) yields CAMERA. -/
theorem getSampleType_not_case_insensitive :
    getSampleType "cam_front" = none ∧
    getSampleTypeCI "cam_front" = some SampleType.CAMERA ∧
    extractSampleSetDescriptorInDirectory "cam_front"
      = some ⟨"cam_front", SampleSetType.CAMERA⟩ := by
  decide

/-- C8 amended: getSampleType classifies by a CASE-SENSITIVE substring match
against the ordered marker list CAM, RADAR, LIDAR with first match winning
(equivalently: the first-match scan of that rule list), and absent when no
marker occurs; the directory-level classifier
extractSampleSetDescriptorInDirectory uses the case-insensitive match. The
claim's examples hold for both: "CAM_FRONT" is CAMERA, "LIDAR_TOP" is LIDAR,
"MISC_SENSOR" is absent. -/
theorem getSampleType_ordered_case_sensitive :
    (∀ name : String,
      getSampleType name =
        firstMarkerType
          [("CAM", SampleType.CAMERA), ("RADAR", SampleType.RADAR),
           ("LIDAR", SampleType.LIDAR)] name) ∧
    getSampleType "CAM_FRONT" = some SampleType.CAMERA ∧
    getSampleType "LIDAR_TOP" = some SampleType.LIDAR ∧
    getSampleType "MISC_SENSOR" = none ∧
    getSampleType "CAM_LIDAR" = some SampleType.CAMERA ∧
    extractSampleSetDescriptorInDirectory "CAM_FRONT"
      = some ⟨"CAM_FRONT", SampleSetType.CAMERA⟩ ∧
    extractSampleSetDescriptorInDirectory "LIDAR_TOP"
      = some ⟨"LIDAR_TOP", SampleSetType.LIDAR⟩ ∧
    extractSampleSetDescriptorInDirectory "MISC_SENSOR" = none := by
  refine ⟨fun name => ?_, by decide, by decide, by decide, by decide,
    by decide, by decide, by decide⟩
  simp only [getSampleType, firstMarkerType]

/-
C7 — decode-task submission.
-/

/-- C7: evaluation of the task-posting code at the failing input. With two
chosen CAMERA sample sets, processSampleSets creates two per-topic queues
but posts a single decode task — the last set's converter
(`sampleSetConverters.back()`) — so the first set's producer never runs and
its queue is never closed, contrary to one task per sample set. -/
theorem postedDecodeTasks_only_last :
    postedDecodeTasks
        [⟨"CAM_FRONT", SampleSetType.CAMERA⟩,
         ⟨"CAM_BACK", SampleSetType.CAMERA⟩]
      = Except.ok ["CAM_BACK"] ∧
    queueTopics
        [⟨"CAM_FRONT", SampleSetType.CAMERA⟩,
         ⟨"CAM_BACK", SampleSetType.CAMERA⟩]
      = ["CAM_FRONT", "CAM_BACK"] ∧
    (["CAM_BACK"] : List String).length ≠
      (["CAM_FRONT", "CAM_BACK"] : List String).length := by
  refine ⟨rfl, rfl, by decide⟩

/-
C2 — clamping of the interpolation fraction.
-/

/-- C2: for an intermediate SampleData whose timestamp lies outside
[t0, t1] with t0 < t1, the interpolation fraction computed by getBoxes
(clamp the timestamp into [t0, t1], then divide the differences) is exactly
0 below the interval and exactly 1 above it. -/
theorem interpAmount_clamps_to_unit (t0 t1 t : ℕ) (h01 : t0 < t1) :
    (t < t0 → interpAmount t0 t1 t = 0) ∧
    (t1 < t → interpAmount t0 t1 t = 1) := by
  constructor
  · intro ht
    have hmin : min t1 t = t := min_eq_right (le_of_lt (lt_trans ht h01))
    have hmax : max t0 t = t0 := max_eq_left (le_of_lt ht)
    simp [interpAmount, clampT, hmin, hmax]
  · intro ht
    have hmin : min t1 t = t1 := min_eq_left (le_of_lt ht)
    have hmax : max t0 t1 = t1 := max_eq_right (le_of_lt h01)
    have hden : ((t1 - t0 : ℕ) : ℚ) ≠ 0 := by
      have hpos : 0 < t1 - t0 := Nat.sub_pos_of_lt h01
      exact_mod_cast Nat.pos_iff_ne_zero.mp hpos
    simp [interpAmount, clampT, hmin, hmax, div_self hden]

/-- C2 witness: the claim's example, t0 = 100, t1 = 200: a SampleData
timestamp of 50 gives fraction 0 and a timestamp of 250 gives fraction 1. -/
theorem interpAmount_clamps_to_unit_witness :
    (100 : ℕ) < 200 ∧ (50 : ℕ) < 100 ∧ (200 : ℕ) < 250 ∧
    interpAmount 100 200 50 = 0 ∧ interpAmount 100 200 250 = 1 :=
  ⟨by decide, by decide, by decide,
   (interpAmount_clamps_to_unit 100 200 50 (by decide)).1 (by decide),
   (interpAmount_clamps_to_unit 100 200 250 (by decide)).2 (by decide)⟩

/-
C1 — keyframe identity.
-/

/-- C1: for a SampleData that is a keyframe, or whose owning Sample has an
empty previous-sample token, getBoxes appends exactly one box per annotation
of that Sample, and each such box carries the annotation's translation,
size, rotation, token and category unchanged (the raw annotation list,
untransformed). -/
theorem getBoxes_keyframe_identity (m : SceneMaps) (sd : SampleDataInfo)
    (boxes : List Box) (s : SampleInfo) (anns : List SampleAnnotationInfo)
    (hs : m.sceneSamples.lookup sd.sampleToken = some s)
    (hkey : sd.isKeyFrame = true ∨ s.prev = "")
    (ha : m.sceneAnnotations.lookup sd.sampleToken = some anns) :
    getBoxes m sd boxes = boxes ++ anns.map makeBox ∧
    ∀ a : SampleAnnotationInfo,
      makeBox a = ⟨a.translation, a.size, a.rotation, a.token,
        a.categoryName, getColor a.categoryName⟩ := by
  constructor
  · have hcond : (sd.isKeyFrame || s.prev == "") = true := by
      rcases hkey with h | h
      · simp [h]
      · simp [h]
    simp [getBoxes, hs, hcond, ha]
  · intro a
    rfl

/-- C1 witness: the keyframe fixture sdKey of sample "S" yields exactly the
raw annotation boxes of "S". -/
theorem getBoxes_keyframe_identity_witness :
    List.lookup sdKey.sampleToken mapsAB.sceneSamples = some sampleS ∧
    (sdKey.isKeyFrame = true ∨ sampleS.prev = "") ∧
    List.lookup sdKey.sampleToken mapsAB.sceneAnnotations
      = some [annV, annNew] ∧
    (getBoxes mapsAB sdKey [] = [] ++ [annV, annNew].map makeBox ∧
     ∀ a : SampleAnnotationInfo,
       makeBox a = ⟨a.translation, a.size, a.rotation, a.token,
         a.categoryName, getColor a.categoryName⟩) :=
  ⟨rfl, Or.inl rfl, rfl,
   getBoxes_keyframe_identity mapsAB sdKey [] sampleS [annV, annNew]
     rfl (Or.inl rfl) rfl⟩

/-
C4 — instances without a previous annotation.
-/

/-- C4: for an intermediate SampleData, every annotation of the current
Sample whose instance token does not occur among the previous Sample's
annotations yields the box built from the current annotation alone
(makeBox, no interpolation), and that box is among the appended output. -/
theorem getBoxes_new_instance_unchanged (m : SceneMaps) (sd : SampleDataInfo)
    (boxes : List Box) (s ps : SampleInfo)
    (currAnns prevAnns : List SampleAnnotationInfo)
    (ann : SampleAnnotationInfo)
    (hs : m.sceneSamples.lookup sd.sampleToken = some s)
    (hkf : sd.isKeyFrame = false) (hprev : s.prev ≠ "")
    (hps : m.sceneSamples.lookup s.prev = some ps)
    (hca : m.sceneAnnotations.lookup sd.sampleToken = some currAnns)
    (hpa : m.sceneAnnotations.lookup ps.token = some prevAnns)
    (hmem : ann ∈ currAnns)
    (hfind : prevAnns.find? (fun a => a.instanceToken == ann.instanceToken)
      = none) :
    getBoxes m sd boxes = boxes ++ currAnns.map
        (interpolateOneBox prevAnns
          (interpAmount ps.timeStamp s.timeStamp sd.timeStamp)) ∧
    interpolateOneBox prevAnns
        (interpAmount ps.timeStamp s.timeStamp sd.timeStamp) ann
      = makeBox ann ∧
    makeBox ann ∈ getBoxes m sd boxes := by
  have hcond : (sd.isKeyFrame || s.prev == "") = false := by
    simp [hkf, hprev]
  have h1 : getBoxes m sd boxes = boxes ++ currAnns.map
      (interpolateOneBox prevAnns
        (interpAmount ps.timeStamp s.timeStamp sd.timeStamp)) := by
    simp [getBoxes, hs, hcond, hps, hca, hpa]
  have h2 : interpolateOneBox prevAnns
      (interpAmount ps.timeStamp s.timeStamp sd.timeStamp) ann
      = makeBox ann := by
    simp [interpolateOneBox, hfind]
  refine ⟨h1, h2, ?_⟩
  rw [h1, ← h2]
  exact List.mem_append_right _ (List.mem_map_of_mem _ hmem)

/-- C4 witness: at the intermediate fixture sdMid, the annotation annNew
(whose instance token has no previous counterpart) keeps its unmodified
current box. -/
theorem getBoxes_new_instance_unchanged_witness :
    List.lookup sdMid.sampleToken mapsAB.sceneSamples = some sampleS ∧
    sdMid.isKeyFrame = false ∧ sampleS.prev ≠ "" ∧
    List.lookup sampleS.prev mapsAB.sceneSamples = some sampleP ∧
    List.lookup sdMid.sampleToken mapsAB.sceneAnnotations
      = some [annV, annNew] ∧
    List.lookup sampleP.token mapsAB.sceneAnnotations = some [annVprev] ∧
    annNew ∈ [annV, annNew] ∧
    [annVprev].find? (fun a => a.instanceToken == annNew.instanceToken)
      = none ∧
    makeBox annNew ∈ getBoxes mapsAB sdMid [] :=
  ⟨rfl, rfl, by decide, rfl, rfl, rfl,
   List.mem_cons_of_mem annV (List.mem_cons_self annNew []), rfl,
   (getBoxes_new_instance_unchanged mapsAB sdMid [] sampleS sampleP
     [annV, annNew] [annVprev] annNew rfl rfl (by decide) rfl rfl rfl
     (List.mem_cons_of_mem annV (List.mem_cons_self annNew [])) rfl).2.2⟩

/-
C10 — failed map lookups leave the box vector unchanged.
-/

/-- C10 counterexample to the claim as stated: a keyframe SampleData whose
owning Sample carries a previous-sample token ("PX") that is absent from the
scene sample map. The claim's condition holds (the previous-sample token is
absent from the scene-local maps), yet getBoxes does not leave the box
vector unchanged: the keyframe branch never consults the previous-sample
token and appends the annotation boxes. -/
theorem getBoxes_dangling_prev_appends :
    List.lookup "PX" mapsDangling.sceneSamples = none ∧
    sdKey.isKeyFrame = true ∧
    (List.lookup sdKey.sampleToken mapsDangling.sceneSamples).map
        SampleInfo.prev = some "PX" ∧
    getBoxes mapsDangling sdKey [] = [makeBox annV] ∧
    (getBoxes mapsDangling sdKey []).length = 1 :=
  ⟨rfl, rfl, rfl, rfl, rfl⟩

/-- C10 amended: getBoxes leaves the box vector exactly as it was (and
returns normally, which the totality of the embedding expresses) whenever a
lookup it actually performs fails: the sample token is absent from the
sample map; or the current annotation list is absent on the keyframe path;
or — on the intermediate path (non-keyframe, nonempty previous token) — the
previous sample, the current annotation list, or the previous annotation
list is absent. -/
theorem getBoxes_missing_lookup_unchanged (m : SceneMaps)
    (sd : SampleDataInfo) (boxes : List Box) :
    (m.sceneSamples.lookup sd.sampleToken = none →
      getBoxes m sd boxes = boxes) ∧
    (∀ s, m.sceneSamples.lookup sd.sampleToken = some s →
      (sd.isKeyFrame || s.prev == "") = true →
      m.sceneAnnotations.lookup sd.sampleToken = none →
      getBoxes m sd boxes = boxes) ∧
    (∀ s, m.sceneSamples.lookup sd.sampleToken = some s →
      (sd.isKeyFrame || s.prev == "") = false →
      m.sceneSamples.lookup s.prev = none →
      getBoxes m sd boxes = boxes) ∧
    (∀ s ps, m.sceneSamples.lookup sd.sampleToken = some s →
      (sd.isKeyFrame || s.prev == "") = false →
      m.sceneSamples.lookup s.prev = some ps →
      m.sceneAnnotations.lookup sd.sampleToken = none →
      getBoxes m sd boxes = boxes) ∧
    (∀ s ps currAnns, m.sceneSamples.lookup sd.sampleToken = some s →
      (sd.isKeyFrame || s.prev == "") = false →
      m.sceneSamples.lookup s.prev = some ps →
      m.sceneAnnotations.lookup sd.sampleToken = some currAnns →
      m.sceneAnnotations.lookup ps.token = none →
      getBoxes m sd boxes = boxes) := by
  refine ⟨fun h => by simp [getBoxes, h],
    fun s hs hc ha => by simp [getBoxes, hs, hc, ha],
    fun s hs hc hp => by simp [getBoxes, hs, hc, hp],
    fun s ps hs hc hp ha => by simp [getBoxes, hs, hc, hp, ha],
    fun s ps currAnns hs hc hp ha hpa => by
      simp [getBoxes, hs, hc, hp, ha, hpa]⟩

/-- C10 witness: with an empty sample map, getBoxes leaves a nonempty input
box vector untouched. -/
theorem getBoxes_missing_lookup_unchanged_witness :
    List.lookup sdKey.sampleToken (⟨[], []⟩ : SceneMaps).sceneSamples
      = none ∧
    getBoxes ⟨[], []⟩ sdKey [makeBox annV] = [makeBox annV] :=
  ⟨rfl,
   (getBoxes_missing_lookup_unchanged ⟨[], []⟩ sdKey [makeBox annV]).1 rfl⟩

/-
C5 — annotation boxes written as box-list and marker-list messages.
-/

/-- Every box interpolateOneBox produces carries the color of its own
category (both branches set color from the annotation's category name). -/
theorem interpolateOneBox_color (prevAnns : List SampleAnnotationInfo)
    (amount : ℚ) (ann : SampleAnnotationInfo) :
    (interpolateOneBox prevAnns amount ann).color
      = getColor (interpolateOneBox prevAnns amount ann).category_name := by
  unfold interpolateOneBox
  split
  · rfl
  · rfl

/-- Every box getBoxes appends to an empty vector carries the color of its
own category. -/
theorem getBoxes_color_eq (m : SceneMaps) (sd : SampleDataInfo) :
    ∀ b ∈ getBoxes m sd [], b.color = getColor b.category_name := by
  intro b hb
  unfold getBoxes at hb
  split at hb
  · simp at hb
  · split at hb
    · split at hb
      · simp at hb
      · simp only [List.nil_append, List.mem_map] at hb
        obtain ⟨a, -, rfl⟩ := hb
        rfl
    · split at hb
      · simp at hb
      · split at hb
        · simp at hb
        · split at hb
          · simp at hb
          · simp only [List.nil_append, List.mem_map] at hb
            obtain ⟨a, -, rfl⟩ := hb
            exact interpolateOneBox_color _ _ _

/-- Each marker makeMarkerArrayMsg builds (from any id offset on) pairs with
its box: a LINE_LIST of 2 * 12 points (the twelve box edges) whose per-point
colors are 24 copies of the box color, and whose marker color is the box
color. -/
theorem makeMarkerMsg_enumFrom_pairing (boxes : List Box) :
    ∀ n : ℕ,
      List.Forall₂
        (fun (b : Box) (mk : Marker) =>
          mk.points.length = 2 * 12 ∧
          mk.colors = List.replicate 24 b.color ∧
          mk.color = b.color)
        boxes ((boxes.enumFrom n).map (fun p => makeMarkerMsg p.2 p.1)) := by
  induction boxes with
  | nil => intro n; exact List.Forall₂.nil
  | cons b bs ih =>
      intro n
      exact List.Forall₂.cons ⟨rfl, rfl, rfl⟩ (ih (n + 1))

/-- C5 counterexample to the claim as stated: a SampleData classified CAMERA.
Its sample has annotation boxes (getBoxes would return them), yet
convertAnnotations performs no write at all for it — the box-list and
marker-list messages are only written for sample data classified LIDAR. -/
theorem convertAnnotations_camera_not_written :
    getSampleType sdCam.fileName = some SampleType.CAMERA ∧
    getBoxes mapsAB sdCam [] = [makeBox annV, makeBox annNew] ∧
    convertAnnotations mapsAB [sdCam] = [] :=
  ⟨rfl, rfl, rfl⟩

/-- C5 amended: during scene conversion, for every SampleData classified
LIDAR, the boxes produced by interpolation are written both as the
structured box-list message (topic "boxes") and as the derived marker-list
message (topic "boxes_viz") with one marker per box, each marker a
LINE_LIST of 2 * 12 points (12 edges) colored throughout with that box's
category color. -/
theorem convertAnnotations_lidar_writes (m : SceneMaps)
    (sds : List SampleDataInfo) (sd : SampleDataInfo)
    (hmem : sd ∈ sds)
    (hlidar : getSampleType sd.fileName = some SampleType.LIDAR) :
    BagWrite.boxesTopic sd.timeStamp ⟨sd.timeStamp, "map", getBoxes m sd []⟩
      ∈ convertAnnotations m sds ∧
    BagWrite.boxesVizTopic sd.timeStamp
        (makeMarkerArrayMsg (getBoxes m sd []))
      ∈ convertAnnotations m sds ∧
    (makeMarkerArrayMsg (getBoxes m sd [])).length
      = (getBoxes m sd []).length ∧
    List.Forall₂
      (fun (b : Box) (mk : Marker) =>
        mk.points.length = 2 * 12 ∧
        mk.colors = List.replicate 24 b.color ∧
        mk.color = b.color)
      (getBoxes m sd []) (makeMarkerArrayMsg (getBoxes m sd [])) ∧
    (∀ b ∈ getBoxes m sd [], b.color = getColor b.category_name) := by
  have hin : ∀ w ∈
      [BagWrite.boxesTopic sd.timeStamp
        ⟨sd.timeStamp, "map", getBoxes m sd []⟩,
       BagWrite.boxesVizTopic sd.timeStamp
        (makeMarkerArrayMsg (getBoxes m sd []))],
      w ∈ convertAnnotations m sds := by
    intro w hw
    unfold convertAnnotations
    refine List.mem_flatMap.mpr ⟨sd, hmem, ?_⟩
    rw [hlidar]
    exact hw
  refine ⟨hin _ (by simp), hin _ (by simp), ?_, ?_, getBoxes_color_eq m sd⟩
  · simp [makeMarkerArrayMsg]
  · exact makeMarkerMsg_enumFrom_pairing (getBoxes m sd []) 0

/-- C5 witness: at the LIDAR keyframe fixture sdKey, both messages appear in
the writes of convertAnnotations and the marker array pairs one 12-edge,
category-colored marker with each box. -/
theorem convertAnnotations_lidar_writes_witness :
    sdKey ∈ [sdKey] ∧
    getSampleType sdKey.fileName = some SampleType.LIDAR ∧
    (BagWrite.boxesTopic sdKey.timeStamp
        ⟨sdKey.timeStamp, "map", getBoxes mapsAB sdKey []⟩
      ∈ convertAnnotations mapsAB [sdKey] ∧
     BagWrite.boxesVizTopic sdKey.timeStamp
        (makeMarkerArrayMsg (getBoxes mapsAB sdKey []))
      ∈ convertAnnotations mapsAB [sdKey] ∧
     (makeMarkerArrayMsg (getBoxes mapsAB sdKey [])).length
      = (getBoxes mapsAB sdKey []).length ∧
     List.Forall₂
      (fun (b : Box) (mk : Marker) =>
        mk.points.length = 2 * 12 ∧
        mk.colors = List.replicate 24 b.color ∧
        mk.color = b.color)
      (getBoxes mapsAB sdKey []) (makeMarkerArrayMsg (getBoxes mapsAB sdKey [])) ∧
     (∀ b ∈ getBoxes mapsAB sdKey [], b.color = getColor b.category_name)) :=
  ⟨List.mem_cons_self sdKey [], rfl,
   convertAnnotations_lidar_writes mapsAB [sdKey] sdKey
     (List.mem_cons_self sdKey []) rfl⟩

/-
C3 — midpoint interpolation: mean center, unit-norm slerp midpoint.
-/

/-- The squared norm of a linear combination of two quaternions, written
through the dot product. -/
theorem quatNormSq_combo (s0 s1 : ℝ) (q0 q1 : Quat) :
    quatNormSq ⟨s0 * q0.w + s1 * q1.w, s0 * q0.x + s1 * q1.x,
      s0 * q0.y + s1 * q1.y, s0 * q0.z + s1 * q1.z⟩
      = s0 ^ 2 * quatNormSq q0 + 2 * s0 * s1 * quatDot q0 q1
        + s1 ^ 2 * quatNormSq q1 := by
  unfold quatNormSq quatDot
  ring

/-- Cauchy-Schwarz for the quaternion dot product of two unit quaternions,
via the Lagrange identity. -/
theorem quatDot_sq_le_one (q0 q1 : Quat) (h0 : quatNormSq q0 = 1)
    (h1 : quatNormSq q1 = 1) : quatDot q0 q1 ^ 2 ≤ 1 := by
  unfold quatNormSq at h0 h1
  unfold quatDot
  nlinarith [sq_nonneg (q0.w * q1.x - q0.x * q1.w),
    sq_nonneg (q0.w * q1.y - q0.y * q1.w),
    sq_nonneg (q0.w * q1.z - q0.z * q1.w),
    sq_nonneg (q0.x * q1.y - q0.y * q1.x),
    sq_nonneg (q0.x * q1.z - q0.z * q1.x),
    sq_nonneg (q0.y * q1.z - q0.z * q1.y)]

/-- At t = 1/2 the two slerp coefficients satisfy
`s0^2 + 2*s0*s1*d + s1^2 = 1` for every admissible dot product d, in both
the near-parallel and the trigonometric branch and under both signs of d:
this is the scalar heart of norm preservation. -/
theorem slerp_half_scales_quadratic (d : ℝ) (hd : d ^ 2 ≤ 1) :
    slerpScale0 (1 / 2) d ^ 2
      + 2 * slerpScale0 (1 / 2) d * slerpScale1 (1 / 2) d * d
      + slerpScale1 (1 / 2) d ^ 2 = 1 := by
  have habs : |d| ≤ 1 := (sq_le_one_iff_abs_le_one d).mp hd
  unfold slerpScale0 slerpScale1
  by_cases h1 : 1 ≤ |d|
  · have heq : |d| = 1 := le_antisymm habs h1
    rw [if_pos h1, if_pos h1]
    by_cases hneg : d < 0
    · have hdm : d = -1 := by
        have ha : -d = 1 := by rw [← abs_of_neg hneg]; exact heq
        linarith
      rw [if_pos hneg, hdm]
      norm_num
    · have hdp : d = 1 := by
        have h0 : 0 ≤ d := not_lt.mp hneg
        rw [abs_of_nonneg h0] at heq
        exact heq
      rw [if_neg hneg, hdp]
      norm_num
  · have hlt : |d| < 1 := not_le.mp h1
    rw [if_neg h1, if_neg h1]
    set θ := Real.arccos |d| with hθdef
    have hcos : Real.cos θ = |d| :=
      Real.cos_arccos (le_trans (by norm_num) (abs_nonneg d)) (le_of_lt hlt)
    have hθpos : 0 < θ := Real.arccos_pos.mpr hlt
    have hθlt : θ < Real.pi :=
      lt_of_le_of_lt (Real.arccos_le_pi_div_two.mpr (abs_nonneg d))
        (by linarith [Real.pi_pos])
    have hsin : 0 < Real.sin θ := Real.sin_pos_of_pos_of_lt_pi hθpos hθlt
    have hsne : Real.sin θ ≠ 0 := ne_of_gt hsin
    have h1mt : (1 - 1 / 2 : ℝ) * θ = θ / 2 := by ring
    have hhalf : (1 / 2 : ℝ) * θ = θ / 2 := by ring
    rw [h1mt, hhalf]
    have hs2 : Real.sin (θ / 2) ^ 2 = 1 / 2 - Real.cos θ / 2 := by
      have h := Real.sin_sq_eq_half_sub (θ / 2)
      rwa [show 2 * (θ / 2) = θ by ring] at h
    have hsin2 : Real.sin θ ^ 2 = 1 - Real.cos θ ^ 2 := Real.sin_sq θ
    by_cases hneg : d < 0
    · have hda : |d| = -d := abs_of_neg hneg
      rw [if_pos hneg]
      have key : (Real.sin (θ / 2) / Real.sin θ) ^ 2 * (2 - 2 * d) = 1 := by
        rw [div_pow, hs2]
        rw [hcos, hda] at hsin2 ⊢
        field_simp
        nlinarith [hsin2]
      linear_combination key
    · have hda : |d| = d := abs_of_nonneg (not_lt.mp hneg)
      rw [if_neg hneg]
      have key : (Real.sin (θ / 2) / Real.sin θ) ^ 2 * (2 + 2 * d) = 1 := by
        rw [div_pow, hs2]
        rw [hcos, hda] at hsin2 ⊢
        field_simp
        nlinarith [hsin2]
      linear_combination key

/-- Slerp of two unit quaternions at t = 1/2 has unit squared norm. -/
theorem slerpE_half_normSq (q0 q1 : Quat) (h0 : quatNormSq q0 = 1)
    (h1 : quatNormSq q1 = 1) : quatNormSq (slerpE (1 / 2) q0 q1) = 1 := by
  have hd := quatDot_sq_le_one q0 q1 h0 h1
  have hquad := slerp_half_scales_quadratic (quatDot q0 q1) hd
  unfold slerpE
  rw [quatNormSq_combo, h0, h1]
  linear_combination hquad

/-- A quaternion has norm 1 exactly when its squared norm is 1. -/
theorem quatNorm_eq_one_iff (q : Quat) : quatNorm q = 1 ↔ quatNormSq q = 1 := by
  unfold quatNorm
  exact Real.sqrt_eq_one

/-- C3: for an intermediate SampleData and an instance present in both the
previous and the current Sample's annotations, when the interpolation
fraction is 1/2 the emitted box's center is the arithmetic mean of the two
annotation translations, its orientation is the slerp midpoint of the two
rotations and has unit norm (given unit input rotations), and its size and
category come from the current annotation. -/
theorem getBoxes_midpoint_mean_unit_norm (m : SceneMaps)
    (sd : SampleDataInfo) (boxes : List Box) (s ps : SampleInfo)
    (currAnns prevAnns : List SampleAnnotationInfo)
    (ann prevAnn : SampleAnnotationInfo)
    (hs : m.sceneSamples.lookup sd.sampleToken = some s)
    (hkf : sd.isKeyFrame = false) (hprev : s.prev ≠ "")
    (hps : m.sceneSamples.lookup s.prev = some ps)
    (hca : m.sceneAnnotations.lookup sd.sampleToken = some currAnns)
    (hpa : m.sceneAnnotations.lookup ps.token = some prevAnns)
    (hmem : ann ∈ currAnns)
    (hfind : prevAnns.find? (fun a => a.instanceToken == ann.instanceToken)
      = some prevAnn)
    (hamt : interpAmount ps.timeStamp s.timeStamp sd.timeStamp = 1 / 2)
    (hq0 : quatNorm prevAnn.rotation = 1) (hq1 : quatNorm ann.rotation = 1) :
    ∃ b ∈ getBoxes m sd boxes,
      b.center = ⟨(prevAnn.translation.x + ann.translation.x) / 2,
                  (prevAnn.translation.y + ann.translation.y) / 2,
                  (prevAnn.translation.z + ann.translation.z) / 2⟩ ∧
      b.orientation = slerpE (1 / 2) prevAnn.rotation ann.rotation ∧
      quatNorm b.orientation = 1 ∧
      b.size = ann.size ∧ b.category_name = ann.categoryName ∧
      b.token = ann.token := by
  have hcond : (sd.isKeyFrame || s.prev == "") = false := by
    simp [hkf, hprev]
  have h1 : getBoxes m sd boxes = boxes ++ currAnns.map
      (interpolateOneBox prevAnns
        (interpAmount ps.timeStamp s.timeStamp sd.timeStamp)) := by
    simp [getBoxes, hs, hcond, hps, hca, hpa]
  have hcast : (((1 : ℚ) / 2 : ℚ) : ℝ) = 1 / 2 := by norm_num
  have hb : interpolateOneBox prevAnns
      (interpAmount ps.timeStamp s.timeStamp sd.timeStamp) ann
      = makeBoxInterp ann (lerp (1 / 2) ann.translation prevAnn.translation)
          (slerpE (1 / 2) prevAnn.rotation ann.rotation) := by
    rw [hamt]
    simp [interpolateOneBox, hfind, hcast]
  refine ⟨interpolateOneBox prevAnns
      (interpAmount ps.timeStamp s.timeStamp sd.timeStamp) ann,
    ?_, ?_, ?_, ?_, ?_, ?_, ?_⟩
  · rw [h1]
    exact List.mem_append_right _ (List.mem_map_of_mem _ hmem)
  · rw [hb]
    show lerp (1 / 2) ann.translation prevAnn.translation = _
    unfold lerp
    simp only [Vec3.mk.injEq]
    exact ⟨by ring, by ring, by ring⟩
  · rw [hb]
    rfl
  · rw [hb]
    show quatNorm (slerpE (1 / 2) prevAnn.rotation ann.rotation) = 1
    rw [quatNorm_eq_one_iff]
    exact slerpE_half_normSq _ _ ((quatNorm_eq_one_iff _).mp hq0)
      ((quatNorm_eq_one_iff _).mp hq1)
  · rw [hb]
    rfl
  · rw [hb]
    rfl
  · rw [hb]
    rfl

/-- C3 witness: at the intermediate fixture sdMid (timestamp 200, halfway
between samples at 100 and 300, so the fraction is exactly 1/2), the
instance shared by annVprev and annV yields the mean center and a unit-norm
midpoint orientation. -/
theorem getBoxes_midpoint_mean_unit_norm_witness :
    List.lookup sdMid.sampleToken mapsAB.sceneSamples = some sampleS ∧
    sdMid.isKeyFrame = false ∧ sampleS.prev ≠ "" ∧
    List.lookup sampleS.prev mapsAB.sceneSamples = some sampleP ∧
    List.lookup sdMid.sampleToken mapsAB.sceneAnnotations
      = some [annV, annNew] ∧
    List.lookup sampleP.token mapsAB.sceneAnnotations = some [annVprev] ∧
    annV ∈ [annV, annNew] ∧
    [annVprev].find? (fun a => a.instanceToken == annV.instanceToken)
      = some annVprev ∧
    interpAmount sampleP.timeStamp sampleS.timeStamp sdMid.timeStamp
      = 1 / 2 ∧
    quatNorm annVprev.rotation = 1 ∧ quatNorm annV.rotation = 1 ∧
    (∃ b ∈ getBoxes mapsAB sdMid [],
      b.center = ⟨(annVprev.translation.x + annV.translation.x) / 2,
                  (annVprev.translation.y + annV.translation.y) / 2,
                  (annVprev.translation.z + annV.translation.z) / 2⟩ ∧
      b.orientation = slerpE (1 / 2) annVprev.rotation annV.rotation ∧
      quatNorm b.orientation = 1 ∧
      b.size = annV.size ∧ b.category_name = annV.categoryName ∧
      b.token = annV.token) :=
  ⟨rfl, rfl, by decide, rfl, rfl, rfl, List.mem_cons_self annV [annNew], rfl,
   by norm_num [interpAmount, clampT, sampleP, sampleS, sdMid],
   by rw [quatNorm_eq_one_iff]; norm_num [annVprev, quatNormSq],
   by rw [quatNorm_eq_one_iff]; norm_num [annV, quatNormSq],
   getBoxes_midpoint_mean_unit_norm mapsAB sdMid [] sampleS sampleP
     [annV, annNew] [annVprev] annV annVprev rfl rfl (by decide) rfl rfl rfl
     (List.mem_cons_self annV [annNew]) rfl
     (by norm_num [interpAmount, clampT, sampleP, sampleS, sdMid])
     (by rw [quatNorm_eq_one_iff]; norm_num [annVprev, quatNormSq])
     (by rw [quatNorm_eq_one_iff]; norm_num [annV, quatNormSq])⟩

/-
C6 — the drain loop forwards everything and terminates.
-/

/-- The pop counter never overtakes the push counter. -/
theorem drained_le_delivered {α : Type} {N : ℕ} (S : DrainSystem α N) :
    ∀ n i, S.drained n i ≤ S.delivered n i := by
  intro n
  induction n with
  | zero =>
      intro i
      rw [S.delivered_zero i]
      exact Nat.le_refl 0
  | succ n ih =>
      intro i
      rw [DrainSystem.drained]
      split
      · exact S.delivered_mono n i
      · exact le_trans (ih i) (S.delivered_mono n i)

/-- A queue holds exactly the delivered-but-not-yet-popped items. -/
theorem buffer_length {α : Type} {N : ℕ} (S : DrainSystem α N) (n : ℕ)
    (i : Fin N) :
    (S.buffer n i).length = S.delivered n i - S.drained n i := by
  unfold DrainSystem.buffer
  rw [List.length_drop, List.length_take, Nat.min_eq_left (S.delivered_le n i)]

/-- After pass n every queue has popped everything that was delivered before
the pass: a processed queue pops its whole buffer, and a skipped queue
(closed and empty) had already popped everything. -/
theorem drained_succ {α : Type} {N : ℕ} (S : DrainSystem α N) (n : ℕ)
    (i : Fin N) : S.drained (n + 1) i = S.delivered n i := by
  rw [DrainSystem.drained]
  split
  · rfl
  · rename_i hcond
    simp only [Bool.or_eq_true, Bool.not_eq_true', decide_eq_true_eq, not_or,
      not_lt, Nat.le_zero] at hcond
    obtain ⟨hclosed, hlen⟩ := hcond
    have hble : S.delivered n i - S.drained n i = 0 := by
      have hb := buffer_length S n i
      unfold DrainSystem.buffer at hb
      omega
    have hle := drained_le_delivered S n i
    omega

/-- A skipped queue forwards nothing, but a skipped queue is empty, so every
pass forwards exactly the buffers. -/
theorem chunk_eq_buffer {α : Type} {N : ℕ} (S : DrainSystem α N) (n : ℕ)
    (i : Fin N) : S.chunk n i = S.buffer n i := by
  unfold DrainSystem.chunk
  split
  · rfl
  · rename_i hcond
    unfold DrainSystem.stillOpen at hcond
    simp only [Bool.or_eq_true, Bool.not_eq_true', decide_eq_true_eq, not_or,
      not_lt, Nat.le_zero] at hcond
    exact (List.eq_nil_of_length_eq_zero hcond.2).symm

/-- Glueing an initial segment to the following slice of a longer prefix. -/
theorem take_append_drop_take {β : Type} (l : List β) (a b : ℕ) (h : a ≤ b) :
    l.take a ++ (l.take b).drop a = l.take b := by
  conv_rhs => rw [← List.take_append_drop a (l.take b)]
  rw [List.take_take, Nat.min_eq_left h]

/-- Everything forwarded from queue i in the first T passes is exactly the
prefix of its item sequence that the pop counter has reached: nothing is
lost, nothing duplicated, order preserved. -/
theorem forwarded_take {α : Type} {N : ℕ} (S : DrainSystem α N) (i : Fin N) :
    ∀ T, S.forwardedUpTo T i = (S.items i).take (S.drained T i) := by
  intro T
  induction T with
  | zero => simp [DrainSystem.forwardedUpTo, DrainSystem.drained]
  | succ T ih =>
      unfold DrainSystem.forwardedUpTo at ih ⊢
      rw [List.range_succ, List.flatMap_append, ih]
      simp only [List.flatMap_cons, List.flatMap_nil, List.append_nil]
      rw [chunk_eq_buffer, drained_succ]
      unfold DrainSystem.buffer
      exact take_append_drop_take _ _ _ (drained_le_delivered S T i)

/-- The loop's exit test: `atLeastOneQueueIsStillOpen` is false exactly when
every queue is both closed and empty. -/
theorem passFlag_false_iff {α : Type} {N : ℕ} (S : DrainSystem α N) (n : ℕ) :
    S.passFlag n = false ↔ ∀ i, S.closedAt n i = true ∧ S.buffer n i = [] := by
  unfold DrainSystem.passFlag DrainSystem.stillOpen
  rw [List.any_eq_false]
  constructor
  · intro h i
    have hi := h i (List.mem_finRange i)
    simp only [Bool.or_eq_true, Bool.not_eq_true', decide_eq_true_eq, not_or,
      not_lt, Nat.le_zero, Bool.not_eq_false] at hi
    exact ⟨hi.1, List.eq_nil_of_length_eq_zero hi.2⟩
  · intro h i _
    obtain ⟨hc, hb⟩ := h i
    simp [hc, hb]

/-- One pass after every producer has closed (and hence fully delivered),
the exit test fires: the loop terminates. -/
theorem passFlag_eventually_false {α : Type} {N : ℕ} (S : DrainSystem α N)
    (P : ℕ) (hP : ∀ i, S.closedAt P i = true) :
    S.passFlag (P + 1) = false := by
  rw [passFlag_false_iff]
  intro i
  refine ⟨S.closed_mono P i (hP i), ?_⟩
  have hfull : S.delivered P i = (S.items i).length := S.closed_full P i (hP i)
  have hfull1 : S.delivered (P + 1) i = (S.items i).length :=
    le_antisymm (S.delivered_le (P + 1) i) (hfull ▸ S.delivered_mono P i)
  have hdr : S.drained (P + 1) i = (S.items i).length := by
    rw [drained_succ, hfull]
  unfold DrainSystem.buffer
  rw [hfull1, hdr, List.take_length, List.drop_length]

/-- C6: for N per-topic queues whose producers eventually close them after
pushing their items, the drain loop terminates at some pass T (the exit
flag is false there and true at every earlier pass), forwards from each
queue exactly its produced item list in order — hence exactly the sum of
the item counts in total, no message lost or duplicated — and its exit test
fires exactly when every queue is both closed and empty. -/
theorem drainLoop_forwards_all_and_terminates {α : Type} {N : ℕ}
    (S : DrainSystem α N) (P : ℕ) (hP : ∀ i, S.closedAt P i = true) :
    ∃ T, S.passFlag T = false ∧ (∀ n < T, S.passFlag n = true) ∧
      (∀ i, S.forwardedUpTo T i = S.items i) ∧
      (∑ i : Fin N, (S.forwardedUpTo T i).length)
        = (∑ i : Fin N, (S.items i).length) ∧
      (∀ n, S.passFlag n = false ↔
        ∀ i, S.closedAt n i = true ∧ S.buffer n i = []) := by
  have hex : ∃ n, S.passFlag n = false :=
    ⟨P + 1, passFlag_eventually_false S P hP⟩
  have hspec := Nat.find_spec hex
  have hfw : ∀ i, S.forwardedUpTo (Nat.find hex) i = S.items i := by
    intro i
    have hT := hspec
    rw [passFlag_false_iff] at hT
    obtain ⟨hc, hbuf⟩ := hT i
    have hlen : (S.buffer (Nat.find hex) i).length = 0 := by rw [hbuf]; rfl
    rw [buffer_length] at hlen
    have hde : S.delivered (Nat.find hex) i = (S.items i).length :=
      S.closed_full _ i hc
    have hle := drained_le_delivered S (Nat.find hex) i
    have hdr : S.drained (Nat.find hex) i = (S.items i).length := by omega
    rw [forwarded_take, hdr, List.take_length]
  refine ⟨Nat.find hex, hspec, ?_, hfw, ?_, fun n => passFlag_false_iff S n⟩
  · intro n hn
    have hne := Nat.find_min hex hn
    cases h : S.passFlag n
    · exact absurd h hne
    · rfl
  · exact Finset.sum_congr rfl (fun i _ => by rw [hfw i])

/-- A concrete two-queue system for the drain-loop witness: producer 0
pushes one item, producer 1 two; all pushes land before pass 1 and both
queues close at pass 1. -/
def drainDemo : DrainSystem ℕ 2 where
  items := fun i => if i.val = 0 then [10] else [20, 30]
  delivered := fun n i => if n = 0 then 0 else if i.val = 0 then 1 else 2
  closedAt := fun n _ => decide (1 ≤ n)
  delivered_zero := fun i => rfl
  delivered_mono := by
    intro n i
    cases n with
    | zero => simp
    | succ n => simp
  delivered_le := by
    intro n i
    by_cases h : n = 0 <;> by_cases h2 : i.val = 0 <;> simp [h, h2]
  closed_mono := by
    intro n i h
    simp only [decide_eq_true_eq] at h ⊢
    omega
  closed_full := by
    intro n i h
    simp only [decide_eq_true_eq] at h
    have hn : ¬ n = 0 := by omega
    by_cases h2 : i.val = 0 <;> simp [hn, h2]

/-- C6 witness: the two-queue demo system terminates, forwards its 1 + 2
items exactly, and exits only closed-and-empty. -/
theorem drainLoop_forwards_all_and_terminates_witness :
    (∀ i : Fin 2, drainDemo.closedAt 1 i = true) ∧
    (∃ T, drainDemo.passFlag T = false ∧
      (∀ n < T, drainDemo.passFlag n = true) ∧
      (∀ i, drainDemo.forwardedUpTo T i = drainDemo.items i) ∧
      (∑ i : Fin 2, (drainDemo.forwardedUpTo T i).length)
        = (∑ i : Fin 2, (drainDemo.items i).length) ∧
      (∀ n, drainDemo.passFlag n = false ↔
        ∀ i, drainDemo.closedAt n i = true ∧ drainDemo.buffer n i = [])) :=
  ⟨by decide, drainLoop_forwards_all_and_terminates drainDemo 1 (by decide)⟩

